import Mathlib

/-!
Verification of the risk decision engine and warm-up schedule generator of the
IpWarmupPoc repository. Go source files are embedded shallowly: Go int becomes
Int, Go float64 becomes Rat (exact real arithmetic), Go strings become String,
and Go slices become List. Each definition mirrors one Go function, keeping the
Go name where Lean allows it.
-/

namespace Vetting

/-- Substring test on character lists; models Go strings.Contains applied to
the underlying bytes (here characters). -/
def listContainsSub (sub : List Char) : List Char → Bool
  | [] => sub.isEmpty
  | c :: t => sub.isPrefixOf (c :: t) || listContainsSub sub t

/-- Models Go strings.Contains(s, sub). -/
def strContains (s sub : String) : Bool :=
  listContainsSub sub.data s.data

/-- Models Go strings.ToLower for the ASCII sources this code base compares;
written over the character list so that it evaluates by kernel reduction. -/
def strToLower (s : String) : String :=
  String.mk (s.data.map Char.toLower)

/-- Models vetting.BlacklistEntry from checks.go. -/
structure BlacklistEntry where
  Source : String
  Listed : Bool
  Info : String
  Reason : String
deriving DecidableEq

/-- Critical blacklists from blacklist_config.go: listing on any of these
rejects the domain. -/
def CriticalBlacklists : List String :=
  ["spamhaus", "ivmurl", "invaluement", "surbl", "abusix", "abuse.ch", "abuseat"]

/-- Models vetting.isCriticalBlacklist: case-normalised source matches some
critical pattern by substring. -/
def isCriticalBlacklist (source : String) : Bool :=
  CriticalBlacklists.any (fun critical => strContains source critical)

/-- Models vetting.getUCEProtectLevel. -/
def getUCEProtectLevel (source : String) : Int :=
  if strContains source ("dnsbl-3") || strContains source ("level3") || strContains source ("l3") then 3
  else if strContains source ("dnsbl-2") || strContains source ("level2") || strContains source ("l2") then 2
  else 1

/-- Models the Go map vetting.UCEProtectLevelPenalties; a missing key yields
the Go zero value 0. -/
def UCEProtectLevelPenalties (level : Int) : Int :=
  if level = 1 then 5
  else if level = 2 then 10
  else if level = 3 then 20
  else 0

/-- Models vetting.getBlacklistPenalty. The Go original ranges over a map whose
iteration order is unspecified; the fixed order used here agrees with every
possible iteration order except on sources that contain both the spamcop and
the vadesecure key, because all other overlapping keys carry the same
penalty. -/
def getBlacklistPenalty (source : String) : Int :=
  if strContains source ("spamcop") then 10
  else if strContains source ("vadesecure") then 30
  else if strContains source ("barracuda") then 10
  else if strContains source ("barracudacentral") then 10
  else 10

/-- Models vetting.BlacklistAnalysis from blacklist_config.go. -/
structure BlacklistAnalysis where
  IsRejected : Bool
  RejectReason : String
  CriticalHits : List String
  TotalPenalty : Int
  PenaltyDetails : List String
deriving DecidableEq

/-- One iteration of the loop body of vetting.AnalyzeBlacklists. -/
def analyzeStep (result : BlacklistAnalysis) (entry : BlacklistEntry) : BlacklistAnalysis :=
  if !entry.Listed then result
  else
    let sourceLower := strToLower entry.Source
    if isCriticalBlacklist sourceLower then
      { result with IsRejected := true, CriticalHits := result.CriticalHits ++ [entry.Source] }
    else if strContains sourceLower ("uceprotect") then
      let level := getUCEProtectLevel sourceLower
      let penalty := UCEProtectLevelPenalties level
      { result with
        TotalPenalty := result.TotalPenalty + penalty,
        PenaltyDetails := result.PenaltyDetails ++
          [entry.Source ++ " (Level " ++ toString level ++ ": -" ++ toString penalty ++ ")"] }
    else
      let penalty := getBlacklistPenalty sourceLower
      { result with
        TotalPenalty := result.TotalPenalty + penalty,
        PenaltyDetails := result.PenaltyDetails ++
          [entry.Source ++ " (-" ++ toString penalty ++ ")"] }

/-- Models vetting.AnalyzeBlacklists. -/
def AnalyzeBlacklists (entries : List BlacklistEntry) : BlacklistAnalysis :=
  let result := entries.foldl analyzeStep ⟨false, "", [], 0, []⟩
  if result.IsRejected && !result.CriticalHits.isEmpty then
    { result with
      RejectReason := "Domain is blacklisted on critical list(s): " ++
        String.intercalate (", ") result.CriticalHits }
  else result

/-- Models vetting.CheckMXReputationAllowed: 0 means the API returned no data
and passes; any other value must be at least 40. -/
def CheckMXReputationAllowed (mxRep : Int) : Bool :=
  if mxRep = 0 then true
  else decide (40 ≤ mxRep)

/-- Models vetting.EmailSecurity from email_security.go. -/
structure EmailSecurity where
  HasValidMX : Bool
  HasSPF : Bool
  HasDMARC : Bool
  SPFRecord : String
  DMARCRecord : String
deriving DecidableEq

/-- Models vetting.SSLQuality from ssl_quality.go. -/
structure SSLQuality where
  ValidUntil : String
  SelfSigned : Bool
  Protocol : String
  Cipher : String
  Score : Int
deriving DecidableEq

/-- Models vetting.OptInCheck from optin.go. -/
structure OptInCheck where
  Compliance : Bool
  HasCaptcha : Bool
  CaptchaWarning : String
deriving DecidableEq

/-- Models vetting.WebsiteCheck from website.go. -/
structure WebsiteCheck where
  Exists : Bool
  HTTPSOk : Bool
  TrafficScore : Int
  TrustScore : Int
deriving DecidableEq

/-- Models vetting.PenaltyBreakdown from scoring_config.go; unset Go struct
fields carry the zero value. -/
structure PenaltyBreakdown where
  HTTPSMissing : Int := 0
  TLSExpiringSoon : Int := 0
  WebsiteNotExists : Int := 0
  DomainTooNew : Int := 0
  SenderScoreLow : Int := 0
  BlacklistPenalty : Int := 0
  BlacklistCount : Int := 0
  GoogleFlagged : Int := 0
  SpamhausHigh : Int := 0
  NoMXRecord : Int := 0
  NoSPF : Int := 0
  NoDMARC : Int := 0
  DMARCPolicyNone : Int := 0
  TrafficScoreLow : Int := 0
  TrafficScoreMedium : Int := 0
  TrustScoreLow : Int := 0
  TrustScoreMedium : Int := 0
  OptInNonCompliant : Int := 0
  NoCaptcha : Int := 0
  TotalPenalties : Int := 0
  FinalScore : Int := 0
  StartingScore : Int := 0
deriving DecidableEq

/-- Models vetting.RiskSummary from scoring.go. -/
structure RiskSummary where
  Score : Int
  Level : String
  Reason : String
  Breakdown : PenaltyBreakdown
deriving DecidableEq

/-- Models vetting.ScoringThresholds from scoring_config.go. -/
structure ScoringThresholds where
  HighRiskMax : Int
  MediumMax : Int
deriving DecidableEq

/-- Models vetting.DefaultScoringThresholds. -/
def DefaultScoringThresholds : ScoringThresholds :=
  { HighRiskMax := 40, MediumMax := 70 }

/-- Models the rejection-reason collection at the top of
vetting.CalculateScoreV2 (scoring.go lines 36 to 51). -/
def rejectReasonsV2 (blacklistAnalysis : BlacklistAnalysis) (mxRepOk : Bool)
    (website : WebsiteCheck) (httpsOK : Bool) (googleFlagged : Bool) : List String :=
  let rejectReasons : List String := []
  let rejectReasons := if blacklistAnalysis.IsRejected then
    rejectReasons ++ [blacklistAnalysis.RejectReason] else rejectReasons
  let rejectReasons := if !mxRepOk then
    rejectReasons ++ [("MX reputation too low")] else rejectReasons
  let rejectReasons := if !website.Exists then
    rejectReasons ++ [("Website does not exist (CRITICAL)")] else rejectReasons
  let rejectReasons := if !httpsOK then
    rejectReasons ++ [("HTTPS not enabled (CRITICAL)")] else rejectReasons
  let rejectReasons := if googleFlagged then
    rejectReasons ++ [("Google Safe Browsing flagged (CRITICAL)")] else rejectReasons
  rejectReasons

/-- Models vetting.buildReasonV2 from scoring.go. -/
def buildReasonV2 (score : Int) (level : String) (breakdown : PenaltyBreakdown)
    (blAnalysis : BlacklistAnalysis) : String :=
  let reasons : List String := []
  let reasons := if breakdown.HTTPSMissing > 0 then
    reasons ++ [("missing HTTPS (-20)")] else reasons
  let reasons := if breakdown.DomainTooNew > 0 then
    reasons ++ [("new domain (-20)")] else reasons
  let reasons := if breakdown.BlacklistPenalty > 0 then
    (let details := String.intercalate (", ") blAnalysis.PenaltyDetails
     if details ≠ "" then reasons ++ ["blacklist penalties: " ++ details]
     else reasons ++ ["blacklist penalty (-" ++ toString breakdown.BlacklistPenalty ++ ")"])
    else reasons
  let reasons := if breakdown.OptInNonCompliant > 0 then
    reasons ++ [("opt-in non-compliant (-25)")] else reasons
  let reasons := if breakdown.GoogleFlagged > 0 then
    reasons ++ [("flagged by Google Safe Browsing (-30)")] else reasons
  let reasons := if breakdown.NoSPF > 0 then
    reasons ++ [("no SPF record (-10)")] else reasons
  let reasons := if breakdown.NoDMARC > 0 then
    reasons ++ [("no DMARC record (-10)")] else reasons
  let reasons := if breakdown.NoMXRecord > 0 then
    reasons ++ [("no MX record (-10)")] else reasons
  let reasons := if breakdown.TLSExpiringSoon > 0 then
    reasons ++ [("TLS expiring soon (-10)")] else reasons
  let reasons := if breakdown.SpamhausHigh > 0 then
    reasons ++ [("high Spamhaus score (-20)")] else reasons
  let reasons := if breakdown.WebsiteNotExists > 0 then
    reasons ++ [("website not accessible (-15)")] else reasons
  let reasons := if breakdown.TrafficScoreLow > 0 then
    reasons ++ [("low traffic score (-10)")] else reasons
  let reasons := if breakdown.TrustScoreLow > 0 then
    reasons ++ [("low trust score (-15)")] else reasons
  let reasons := if breakdown.NoCaptcha > 0 then
    reasons ++ [("no CAPTCHA (-5)")] else reasons
  if reasons.isEmpty then "All checks passed"
  else "Score: " ++ toString score ++ ", Level: " ++ level ++ ". Issues: " ++
    String.intercalate (", ") reasons

/-- The score accumulation of the non-rejected path of CalculateScoreV2:
starting from 100, each Go penalty subtraction in source order. -/
def rawScoreV2 (whoisDays : Int) (blacklistAnalysis : BlacklistAnalysis)
    (email : EmailSecurity) (optIn : OptInCheck) : Int :=
  let score : Int := 100
  let score := if whoisDays < 60 then score - 20 else score
  let score := if blacklistAnalysis.TotalPenalty > 0 then
    score - blacklistAnalysis.TotalPenalty else score
  let score := if !email.HasValidMX then score - 60 else score
  let score := if !email.HasDMARC then score - 20
    else if strContains (strToLower email.DMARCRecord) ("p=none") then score - 10 else score
  if !optIn.HasCaptcha then score - 50 else score

/-- Models vetting.CalculateScoreV2 from scoring.go; the weights are the
hard-coded constants of that function. The per-penalty breakdown field
assignments of the Go body are gathered into one record literal, each field
keeping exactly its Go guard and value; the score accumulation is rawScoreV2,
and the clamping and level steps follow the Go statement order. -/
def CalculateScoreV2 (httpsOK : Bool) (tlsDays whoisDays : Int)
    (blacklistAnalysis : BlacklistAnalysis) (mxRepOk googleFlagged : Bool)
    (email : EmailSecurity) (ssl : SSLQuality) (optIn : OptInCheck)
    (website : WebsiteCheck) (isRejected : Bool) : RiskSummary :=
  let thresholds := DefaultScoringThresholds
  if isRejected then
    let reason := "REJECTED: " ++ String.intercalate ("; ")
      (rejectReasonsV2 blacklistAnalysis mxRepOk website httpsOK googleFlagged)
    { Score := 0, Level := "rejected", Reason := reason,
      Breakdown := { StartingScore := 100, TotalPenalties := 100, FinalScore := 0 } }
  else
    let score := rawScoreV2 whoisDays blacklistAnalysis email optIn
    let breakdown : PenaltyBreakdown :=
      { StartingScore := 100,
        BlacklistCount := (blacklistAnalysis.PenaltyDetails.length : Int),
        DomainTooNew := if whoisDays < 60 then 20 else 0,
        BlacklistPenalty := if blacklistAnalysis.TotalPenalty > 0 then
          blacklistAnalysis.TotalPenalty else 0,
        NoMXRecord := if !email.HasValidMX then 60 else 0,
        NoDMARC := if !email.HasDMARC then 20 else 0,
        DMARCPolicyNone := if !email.HasDMARC then 0
          else if strContains (strToLower email.DMARCRecord) ("p=none") then 10 else 0,
        NoCaptcha := if !optIn.HasCaptcha then 50 else 0,
        TotalPenalties := 100 - score }
    let breakdown := if score < 0 then { breakdown with TotalPenalties := 100 } else breakdown
    let score := if score < 0 then 0 else score
    let breakdown := if score > 100 then { breakdown with TotalPenalties := 0 } else breakdown
    let score := if score > 100 then 100 else score
    let breakdown := { breakdown with FinalScore := score }
    let level := if score ≤ thresholds.HighRiskMax then "high-risk"
      else if score ≤ thresholds.MediumMax then "medium" else "good"
    let level := if !optIn.Compliance then "high-risk" else level
    let reason := buildReasonV2 score level breakdown blacklistAnalysis
    { Score := score, Level := level, Reason := reason, Breakdown := breakdown }

/-- Models vetting.SelfAttestedOptIn from optin.go. -/
structure SelfAttestedOptIn where
  OptInLink : String
  HasCaptcha : Bool
deriving DecidableEq

/-- Models vetting.EvaluateOptIn from optin.go. The real function performs a
network crawl through DetectCaptcha; that I/O result is abstracted as the
detectedCaptcha argument, while the compliance defaulting logic is kept
exactly as in the source. -/
def EvaluateOptIn (selfAttested : Option SelfAttestedOptIn) (domain : String)
    (detectedCaptcha : Bool) : OptInCheck :=
  let compliance := true
  let warning := if !detectedCaptcha then
    "WARNING: No CAPTCHA detected on the website. Domain may be exposed to bots, spam, and automated attacks. Consider implementing reCAPTCHA, hCaptcha, or Cloudflare Turnstile."
    else ""
  { Compliance := compliance, HasCaptcha := detectedCaptcha, CaptchaWarning := warning }

/-- Models vetting.WarmupDay from warmup.go. -/
structure WarmupDay where
  Day : Int
  Limit : Int
deriving DecidableEq

/-- Models vetting.excelRound: Excel style rounding, 0.5 rounds up, and any
non-positive value rounds to 0. -/
def excelRound (v : Rat) : Int :=
  if v ≤ 0 then 0
  else ⌊v + 1/2⌋

/-- The 30 DAY multiplier table of GenerateWarmupPlans (warmup.go). -/
def multipliers30 : List Rat :=
  [1/7, 1/6, 1/5, 1/4, 1/3, 1/2,
   0.8, 5/6, 1,
   1.2, 1.4, 1.8, 2.2, 2.4, 2.8, 3.2, 3.5, 4, 4.5, 5,
   6, 7, 8, 9, 11, 13, 15, 20, 25, 30,
   40, 50, 60, 70, 80, 90, 100, 110, 130, 150]

/-- The day 10 to 60 multiplier table of the lessThan30 helper (warmup.go). -/
def lessThan30Mults : List Rat :=
  [1.2, 1.4, 1.8, 2.2, 2.4, 2.8, 3.2, 3.5, 4, 4.5, 5,
   6, 7, 8, 9, 11, 13, 15, 20, 25, 30,
   40, 50, 60, 70, 80, 90, 100, 110, 130, 150,
   30, 33, 35, 40, 45, 50, 55, 60, 65, 70,
   75, 80, 85, 90, 95, 100, 105, 110, 115, 120]

/-- The day 10 to 60 multiplier table of the greaterThan30 helper (warmup.go). -/
def greaterThan30Mults : List Rat :=
  [1.2, 1.4, 1.6, 1.8, 2, 2.2, 2.4, 2.6, 2.8, 3,
   3.5, 4, 4.5, 5, 6, 7, 8, 9, 10, 11, 12,
   13, 14, 15, 16, 17, 18, 20, 22, 25, 28,
   30, 33, 35, 40, 45, 50, 55, 60, 65, 70,
   75, 80, 85, 90, 95, 100, 105, 110, 115, 120]

/-- Models the lessThan30 closure inside GenerateWarmupPlans; medianCustom and
factor are the captured Excel cell values. -/
def lessThan30 (medianCustom factor : Rat) (day : Int) : Rat :=
  if day = 1 then (medianCustom / 7) * factor
  else if day = 2 then (medianCustom / 6) * factor
  else if day = 3 then (medianCustom / 5) * factor
  else if day = 4 then (medianCustom / 4) * factor
  else if day = 5 then (medianCustom / 3) * factor
  else if day = 6 then (medianCustom / 2) * factor
  else if day = 7 then (medianCustom / 1.5) * factor
  else if day = 8 then (medianCustom / 1.2) * factor
  else if day = 9 then medianCustom * factor
  else
    let idx := day - 10
    if idx < 0 ∨ (lessThan30Mults.length : Int) ≤ idx then 0
    else
      let m := lessThan30Mults.getD idx.toNat 0
      ((medianCustom * m) * factor) * m

/-- Models the greaterThan30 closure inside GenerateWarmupPlans. -/
def greaterThan30 (medianCustom factor : Rat) (day : Int) : Rat :=
  if day ≤ 9 then lessThan30 medianCustom factor day
  else
    let idx := day - 10
    if idx < 0 ∨ (greaterThan30Mults.length : Int) ≤ idx then 0
    else
      let m := greaterThan30Mults.getD idx.toNat 0
      (medianCustom * m) * factor

/-- Models vetting.calculatePeriodAdjuster from warmup.go. -/
def calculatePeriodAdjuster (targetVolume days : Int) : Rat :=
  let baseAdjuster : Rat := 390
  let volumePerDay : Rat := (targetVolume : Rat) / (days : Rat)
  let adjustment := (volumePerDay / 1000) * 0.5
  let periodAdjuster := baseAdjuster + adjustment
  if periodAdjuster < 383 then 383
  else if periodAdjuster > 424 then 424
  else periodAdjuster

/-- Models vetting.calculateInitialTotalAdjuster from warmup.go. -/
def calculateInitialTotalAdjuster (periodAdjuster : Rat) (days : Int) : Rat :=
  if days = 20 then 385
  else if days = 45 then
    let initial := periodAdjuster + 10
    if initial < 400 then 400
    else if initial > 450 then 450
    else initial
  else periodAdjuster + 1

/-- The Fibonacci constants of generateFibonacciDecreasingSequence. -/
def fibNumbers : List Rat := [144, 89, 55, 34, 21, 13, 8, 5, 3, 2]

/-- Fill a given number of slots with fibNumbers and then with ones; models the
two trailing loops of the 20 day and default branches of
generateFibonacciDecreasingSequence. -/
def fillFibThenOnes (slots : Nat) : List Rat :=
  fibNumbers.take slots ++ List.replicate (slots - fibNumbers.length) 1

/-- Models vetting.generateFibonacciDecreasingSequence from warmup.go. Index 0
is always 0; the 45 day branch writes the ten Fibonacci constants twice while
the index stays below days minus 15, then 5, 3, 2, then ones. Callers always
pass days of at least 1. -/
def generateFibonacciDecreasingSequence (days : Nat) : List Rat :=
  if days = 20 then
    0 :: fillFibThenOnes (days - 1)
  else if days = 45 then
    let part1 := (fibNumbers ++ fibNumbers).take (days - 16)
    let afterPart1 := 1 + part1.length
    let part2 := ([5, 3, 2] : List Rat).take (days - afterPart1)
    let afterPart2 := afterPart1 + part2.length
    0 :: (part1 ++ part2 ++ List.replicate (days - afterPart2) 1)
  else
    0 :: fillFibThenOnes (days - 1)

/-- The running-difference loop of generateTotalAdjusterSequence: each value is
the previous one minus the matching Fibonacci term, floored at 1. -/
def adjSeqAux (prev : Rat) : List Rat → List Rat
  | [] => []
  | f :: rest =>
    let next := if prev - f < 1 then 1 else prev - f
    next :: adjSeqAux next rest

/-- Models vetting.generateTotalAdjusterSequence from warmup.go, including the
45 day rescaling of the Fibonacci terms and the forced terminal value 1. -/
def generateTotalAdjusterSequence (initialTotalAdjuster : Rat) (days : Nat) : List Rat :=
  let fibSequence := generateFibonacciDecreasingSequence days
  let fibSequence :=
    if days = 45 then
      let sum := (fibSequence.drop 1).foldl (fun a b => a + b) 0
      let targetSum := initialTotalAdjuster - 1
      if sum > 0 ∧ targetSum > 0 then
        match fibSequence with
        | [] => []
        | h :: t => h :: t.map (fun x => x * (targetSum / sum))
      else fibSequence
    else fibSequence
  let sequence :=
    match fibSequence with
    | [] => []
    | _ :: rest => initialTotalAdjuster :: adjSeqAux initialTotalAdjuster rest
  sequence.set (days - 1) 1

/-- Write a new limit into the plan at a given index, keeping the day number;
models the Go assignment plan[i].Limit = v. -/
def setLimit : List WarmupDay → Nat → Int → List WarmupDay
  | [], _, _ => []
  | d :: rest, 0, v => ⟨d.Day, v⟩ :: rest
  | d :: rest, i + 1, v => d :: setLimit rest i v

/-- Models vetting.generateFibonacciPlan from warmup.go. -/
def generateFibonacciPlan (targetVolume days : Int) : List WarmupDay :=
  if days ≤ 0 ∨ targetVolume ≤ 0 then []
  else
    let n := days.toNat
    let periodAdjuster := calculatePeriodAdjuster targetVolume days
    let initialTotalAdjuster := calculateInitialTotalAdjuster periodAdjuster days
    let totalAdjusterSequence := generateTotalAdjusterSequence initialTotalAdjuster n
    let singularity : Rat := 1
    let plan := (List.range n).map (fun (i : Nat) =>
      let dayIndex := if totalAdjusterSequence.length ≤ i then totalAdjusterSequence.length - 1 else i
      let totalAdjuster := totalAdjusterSequence.getD dayIndex 0
      let totalAdjuster := if totalAdjuster ≤ 0 then 1 else totalAdjuster
      let volumePerIP := ((targetVolume : Rat) / totalAdjuster) * singularity
      WarmupDay.mk ((i : Int) + 1) (excelRound volumePerIP))
    setLimit plan (n - 1) targetVolume

/-- Overwrite the first entries of a plan with entries of a second plan;
models the Go loop for i < n and i < len(fib): plan[i] = fib[i]. -/
def overwriteUpTo : Nat → List WarmupDay → List WarmupDay → List WarmupDay
  | 0, plan, _ => plan
  | _ + 1, plan, [] => plan
  | _ + 1, [], _ => []
  | n + 1, _ :: rest, f :: fs => f :: overwriteUpTo n rest fs

/-- The three columns returned by vetting.GenerateWarmupPlans. -/
structure WarmupPlans where
  plan30 : List WarmupDay
  planLt30 : List WarmupDay
  planGt30 : List WarmupDay
deriving DecidableEq

/-- The 30 DAY column of the generator loop in GenerateWarmupPlans: day 1 to
60, limit from the multiplier table while the day is within it, 0 after. -/
def plan30Static (median30 : Rat) : List WarmupDay :=
  (List.range 60).map (fun (i : Nat) =>
    let day := (i : Int) + 1
    WarmupDay.mk day
      (if day ≤ (multipliers30.length : Int) then
        excelRound (median30 * multipliers30.getD (day - 1).toNat 0)
      else 0))

/-- The accelerated column of the generator loop: day 1 to 60, each limit the
rounded lessThan30 value. -/
def planLt30Static (medianCustom factor : Rat) : List WarmupDay :=
  (List.range 60).map (fun (i : Nat) =>
    let day := (i : Int) + 1
    WarmupDay.mk day (excelRound (lessThan30 medianCustom factor day)))

/-- The extended column of the generator loop: day 1 to 60, each limit the
rounded greaterThan30 value. -/
def planGt30Static (medianCustom factor : Rat) : List WarmupDay :=
  (List.range 60).map (fun (i : Nat) =>
    let day := (i : Int) + 1
    WarmupDay.mk day (excelRound (greaterThan30 medianCustom factor day)))

/-- Models vetting.GenerateWarmupPlans from warmup.go: the 60 day grid of the
three curves, with the Fibonacci replacement for periods 20 and 45; the three
column builders of the generator loop are the static plan functions above. -/
def GenerateWarmupPlans (targetVolume customPeriod : Int) : WarmupPlans :=
  let maxDays : Int := 60
  let customPeriod := if customPeriod ≤ 0 then 30 else customPeriod
  let customPeriod := if customPeriod > maxDays then maxDays else customPeriod
  let tv : Rat := (targetVolume : Rat)
  let cp : Rat := (customPeriod : Rat)
  let tp : Rat := 30
  let medianCustom := tv / cp
  let median30 := tv / tp
  let factor := tp / cp
  let plan30 := plan30Static median30
  let planLt30 := planLt30Static medianCustom factor
  let planGt30 := planGt30Static medianCustom factor
  if customPeriod = 20 ∨ customPeriod = 45 then
    let fibPlan := generateFibonacciPlan targetVolume customPeriod
    if customPeriod = 20 then
      ⟨plan30, overwriteUpTo customPeriod.toNat planLt30 fibPlan, planGt30⟩
    else
      ⟨plan30, planLt30, overwriteUpTo customPeriod.toNat planGt30 fibPlan⟩
  else
    ⟨plan30, planLt30, planGt30⟩

/-! Derived specification functions and helper lemmas. -/

/-- The threshold-to-level mapping of CalculateScoreV2, written from the
DefaultScoringThresholds values. -/
def levelFromScore (score : Int) : String :=
  if score ≤ DefaultScoringThresholds.HighRiskMax then "high-risk"
  else if score ≤ DefaultScoringThresholds.MediumMax then "medium"
  else "good"

/-- The total of the penalties that the non-rejected path of CalculateScoreV2
applies, written as a single sum. -/
def appliedPenaltyTotal (whoisDays : Int) (bl : BlacklistAnalysis)
    (email : EmailSecurity) (optIn : OptInCheck) : Int :=
  (if whoisDays < 60 then 20 else 0) +
  (if bl.TotalPenalty > 0 then bl.TotalPenalty else 0) +
  (if !email.HasValidMX then 60 else 0) +
  (if !email.HasDMARC then 20
   else if strContains (strToLower email.DMARCRecord) ("p=none") then 10 else 0) +
  (if !optIn.HasCaptcha then 50 else 0)

lemma appliedPenaltyTotal_nonneg (whoisDays : Int) (bl : BlacklistAnalysis)
    (email : EmailSecurity) (optIn : OptInCheck) :
    0 ≤ appliedPenaltyTotal whoisDays bl email optIn := by
  unfold appliedPenaltyTotal
  split_ifs <;> omega

lemma rawScoreV2_eq_total (whoisDays : Int) (bl : BlacklistAnalysis)
    (email : EmailSecurity) (optIn : OptInCheck) :
    rawScoreV2 whoisDays bl email optIn =
      100 - appliedPenaltyTotal whoisDays bl email optIn := by
  unfold rawScoreV2 appliedPenaltyTotal
  dsimp only
  split_ifs <;> omega

lemma calcV2_nonrejected (httpsOK : Bool) (tlsDays whoisDays : Int)
    (bl : BlacklistAnalysis) (mxRepOk googleFlagged : Bool) (email : EmailSecurity)
    (ssl : SSLQuality) (optIn : OptInCheck) (website : WebsiteCheck) :
    0 ≤ appliedPenaltyTotal whoisDays bl email optIn ∧
    (CalculateScoreV2 httpsOK tlsDays whoisDays bl mxRepOk googleFlagged email ssl
        optIn website false).Score =
      (if 100 - appliedPenaltyTotal whoisDays bl email optIn < 0 then 0
       else 100 - appliedPenaltyTotal whoisDays bl email optIn) ∧
    (CalculateScoreV2 httpsOK tlsDays whoisDays bl mxRepOk googleFlagged email ssl
        optIn website false).Breakdown.StartingScore = 100 ∧
    (CalculateScoreV2 httpsOK tlsDays whoisDays bl mxRepOk googleFlagged email ssl
        optIn website false).Breakdown.TotalPenalties =
      (if 100 - appliedPenaltyTotal whoisDays bl email optIn < 0 then 100
       else appliedPenaltyTotal whoisDays bl email optIn) ∧
    (CalculateScoreV2 httpsOK tlsDays whoisDays bl mxRepOk googleFlagged email ssl
        optIn website false).Breakdown.FinalScore =
      (CalculateScoreV2 httpsOK tlsDays whoisDays bl mxRepOk googleFlagged email ssl
        optIn website false).Score := by
  have hapt := appliedPenaltyTotal_nonneg whoisDays bl email optIn
  have hraw := rawScoreV2_eq_total whoisDays bl email optIn
  by_cases hneg : rawScoreV2 whoisDays bl email optIn < 0
  · have hcond : 100 - appliedPenaltyTotal whoisDays bl email optIn < 0 := by omega
    refine ⟨hapt, ?_, ?_, ?_, ?_⟩ <;>
      simp [CalculateScoreV2, hneg, hcond]
  · have hcond : ¬(100 - appliedPenaltyTotal whoisDays bl email optIn < 0) := by omega
    have hlt : ¬(rawScoreV2 whoisDays bl email optIn > 100) := by omega
    refine ⟨hapt, ?_, ?_, ?_, ?_⟩ <;>
      simp [CalculateScoreV2, hneg, hcond, hlt] <;> omega

/-- An entry the classifier treats as critical: listed and matching a critical
pattern after lowercasing; AnalyzeBlacklists applies this test before every
other classification. -/
def isCriticalEntry (e : BlacklistEntry) : Bool :=
  e.Listed && isCriticalBlacklist (strToLower e.Source)

/-- An entry that reaches the penalty path: listed and not critical. -/
def isPenaltyEntry (e : BlacklistEntry) : Bool :=
  e.Listed && !isCriticalBlacklist (strToLower e.Source)

/-- The penalty a non-critical listed entry contributes. -/
def entryPenalty (e : BlacklistEntry) : Int :=
  let s := strToLower e.Source
  if strContains s ("uceprotect") then UCEProtectLevelPenalties (getUCEProtectLevel s)
  else getBlacklistPenalty s

/-- The detail string a non-critical listed entry contributes. -/
def penaltyDetailString (e : BlacklistEntry) : String :=
  let s := strToLower e.Source
  if strContains s ("uceprotect") then
    e.Source ++ " (Level " ++ toString (getUCEProtectLevel s) ++ ": -" ++
      toString (UCEProtectLevelPenalties (getUCEProtectLevel s)) ++ ")"
  else
    e.Source ++ " (-" ++ toString (getBlacklistPenalty s) ++ ")"

lemma analyzeStep_foldl (entries : List BlacklistEntry) :
    ∀ acc : BlacklistAnalysis,
      entries.foldl analyzeStep acc =
        { IsRejected := acc.IsRejected || entries.any isCriticalEntry,
          RejectReason := acc.RejectReason,
          CriticalHits := acc.CriticalHits ++
            (entries.filter isCriticalEntry).map (fun e => e.Source),
          TotalPenalty := acc.TotalPenalty +
            ((entries.filter isPenaltyEntry).map entryPenalty).sum,
          PenaltyDetails := acc.PenaltyDetails ++
            (entries.filter isPenaltyEntry).map penaltyDetailString } := by
  induction entries with
  | nil => intro acc; simp
  | cons e es ih =>
    intro acc
    rw [List.foldl_cons, ih]
    by_cases hl : e.Listed = true
    · by_cases hcrit : isCriticalBlacklist (strToLower e.Source) = true
      · simp [analyzeStep, hl, hcrit, isCriticalEntry, isPenaltyEntry,
          List.filter_cons, List.any_cons]
      · by_cases huce : strContains (strToLower e.Source) ("uceprotect") = true
        · simp [analyzeStep, hl, hcrit, huce, isCriticalEntry, isPenaltyEntry,
            entryPenalty, penaltyDetailString, List.filter_cons, List.any_cons]
          omega
        · simp [analyzeStep, hl, hcrit, huce, isCriticalEntry, isPenaltyEntry,
            entryPenalty, penaltyDetailString, List.filter_cons, List.any_cons]
          omega
    · simp [analyzeStep, hl, isCriticalEntry, isPenaltyEntry,
        List.filter_cons, List.any_cons]

/-- Claim C3: whenever some listed entry matches a critical source, the
analysis is rejected; critical entries are recorded in CriticalHits in input
order and contribute nothing to TotalPenalty or PenaltyDetails, which come
from the listed non-critical entries alone. The critical test runs before the
penalty classification, so a source matching both kinds of pattern is
classified critical. -/
theorem claim_c3_critical_rejection (entries : List BlacklistEntry)
    (h : ∃ e ∈ entries, e.Listed = true ∧ isCriticalBlacklist (strToLower e.Source) = true) :
    (AnalyzeBlacklists entries).IsRejected = true ∧
    (AnalyzeBlacklists entries).TotalPenalty =
      ((entries.filter isPenaltyEntry).map entryPenalty).sum ∧
    (AnalyzeBlacklists entries).CriticalHits =
      (entries.filter isCriticalEntry).map (fun e => e.Source) ∧
    (AnalyzeBlacklists entries).PenaltyDetails =
      (entries.filter isPenaltyEntry).map penaltyDetailString := by
  obtain ⟨e, he, hl, hcrit⟩ := h
  have hmem : e ∈ entries.filter isCriticalEntry :=
    List.mem_filter.mpr ⟨he, by simp [isCriticalEntry, hl, hcrit]⟩
  have hany : entries.any isCriticalEntry = true :=
    List.any_eq_true.mpr ⟨e, he, by simp [isCriticalEntry, hl, hcrit]⟩
  have hne : entries.filter isCriticalEntry ≠ [] := List.ne_nil_of_mem hmem
  unfold AnalyzeBlacklists
  rw [analyzeStep_foldl]
  simp [hany, hne]

/-- Claim C3 witness: the theorem applied to a single listed spamhaus entry. -/
theorem claim_c3_witness :
    (AnalyzeBlacklists [⟨"zen.spamhaus.org", true, "", ""⟩]).IsRejected = true ∧
    (AnalyzeBlacklists [⟨"zen.spamhaus.org", true, "", ""⟩]).TotalPenalty =
      ((([⟨"zen.spamhaus.org", true, "", ""⟩] : List BlacklistEntry).filter
        isPenaltyEntry).map entryPenalty).sum := by
  have h := claim_c3_critical_rejection [⟨"zen.spamhaus.org", true, "", ""⟩]
    ⟨⟨"zen.spamhaus.org", true, "", ""⟩, by simp, rfl, by decide⟩
  exact ⟨h.1, h.2.1⟩

/-- Claim C9: CheckMXReputationAllowed r is true exactly when r is 0, meaning
the reputation is unknown and passes, or r is at least the floor 40. -/
theorem claim_c9_mx_reputation_floor (r : Int) :
    CheckMXReputationAllowed r = true ↔ (r = 0 ∨ 40 ≤ r) := by
  unfold CheckMXReputationAllowed
  split_ifs with h
  · simp [h]
  · simp [h]

/-- Claim C9 witness: the theorem applied at reputation 0. -/
theorem claim_c9_witness : CheckMXReputationAllowed 0 = true :=
  (claim_c9_mx_reputation_floor 0).mpr (Or.inl rfl)

/-- Claim C5 counterexample: an input with Compliance false but isRejected
true receives level rejected, not high-risk, so the claim fails as stated
over every input. -/
theorem claim_c5_counterexample :
    (CalculateScoreV2 true 100 100 ⟨false, "", [], 0, []⟩ true false
      ⟨true, true, true, "", ""⟩ ⟨"", false, "", "", 0⟩ ⟨false, true, ""⟩
      ⟨true, true, 10, 10⟩ true).Level = "rejected" ∧
    ¬((CalculateScoreV2 true 100 100 ⟨false, "", [], 0, []⟩ true false
      ⟨true, true, true, "", ""⟩ ⟨"", false, "", "", 0⟩ ⟨false, true, ""⟩
      ⟨true, true, 10, 10⟩ true).Level = "high-risk") := by
  constructor
  · rfl
  · decide

/-- Claim C5 amended: for every non-rejected input with Compliance false the
returned level is high-risk regardless of the numeric score, and the score is
the same as for the identical input with Compliance true. -/
theorem claim_c5_optin_level_override (httpsOK : Bool) (tlsDays whoisDays : Int)
    (bl : BlacklistAnalysis) (mxRepOk googleFlagged : Bool) (email : EmailSecurity)
    (ssl : SSLQuality) (hasCaptcha : Bool) (warning : String) (website : WebsiteCheck) :
    (CalculateScoreV2 httpsOK tlsDays whoisDays bl mxRepOk googleFlagged email ssl
      ⟨false, hasCaptcha, warning⟩ website false).Level = "high-risk" ∧
    (CalculateScoreV2 httpsOK tlsDays whoisDays bl mxRepOk googleFlagged email ssl
      ⟨false, hasCaptcha, warning⟩ website false).Score =
    (CalculateScoreV2 httpsOK tlsDays whoisDays bl mxRepOk googleFlagged email ssl
      ⟨true, hasCaptcha, warning⟩ website false).Score :=
  ⟨rfl, rfl⟩

/-- Claim C10: EvaluateOptIn always returns Compliance true whatever the
self-attested data, domain and crawl outcome, so in the pipeline the opt-in
override of CalculateScoreV2 never fires: a non-rejected evaluation gets the
pure threshold level of its score, and a rejected one gets level rejected. -/
theorem claim_c10_optin_always_compliant (sa : Option SelfAttestedOptIn)
    (domain : String) (detected : Bool) (httpsOK : Bool) (tlsDays whoisDays : Int)
    (bl : BlacklistAnalysis) (mxRepOk googleFlagged : Bool) (email : EmailSecurity)
    (ssl : SSLQuality) (website : WebsiteCheck) :
    (EvaluateOptIn sa domain detected).Compliance = true ∧
    (CalculateScoreV2 httpsOK tlsDays whoisDays bl mxRepOk googleFlagged email ssl
        (EvaluateOptIn sa domain detected) website false).Level =
      levelFromScore (CalculateScoreV2 httpsOK tlsDays whoisDays bl mxRepOk
        googleFlagged email ssl (EvaluateOptIn sa domain detected) website false).Score ∧
    (CalculateScoreV2 httpsOK tlsDays whoisDays bl mxRepOk googleFlagged email ssl
        (EvaluateOptIn sa domain detected) website true).Level = "rejected" :=
  ⟨rfl, rfl, rfl⟩

/-- Claim C2 counterexample: a non-rejected evaluation with enough penalties,
here new domain, no MX, no DMARC and no captcha, also reaches score 0, so the
rejection path is not the only source of score 0. -/
theorem claim_c2_counterexample :
    (CalculateScoreV2 true 100 0 ⟨false, "", [], 0, []⟩ true false
      ⟨false, false, false, "", ""⟩ ⟨"", false, "", "", 0⟩ ⟨true, false, ""⟩
      ⟨true, true, 10, 10⟩ false).Score = 0 := by
  decide

/-- Claim C2 amended: every rejected input yields score 0, level rejected and
reason REJECTED followed by the joined gate reasons; score 0 also arises
without rejection, exactly when the applied penalties total at least 100. -/
theorem claim_c2_rejection_output (httpsOK : Bool) (tlsDays whoisDays : Int)
    (bl : BlacklistAnalysis) (mxRepOk googleFlagged : Bool) (email : EmailSecurity)
    (ssl : SSLQuality) (optIn : OptInCheck) (website : WebsiteCheck) :
    (CalculateScoreV2 httpsOK tlsDays whoisDays bl mxRepOk googleFlagged email ssl
      optIn website true).Score = 0 ∧
    (CalculateScoreV2 httpsOK tlsDays whoisDays bl mxRepOk googleFlagged email ssl
      optIn website true).Level = "rejected" ∧
    (CalculateScoreV2 httpsOK tlsDays whoisDays bl mxRepOk googleFlagged email ssl
        optIn website true).Reason =
      "REJECTED: " ++ String.intercalate ("; ")
        (rejectReasonsV2 bl mxRepOk website httpsOK googleFlagged) ∧
    ((CalculateScoreV2 httpsOK tlsDays whoisDays bl mxRepOk googleFlagged email ssl
        optIn website false).Score = 0 ↔
      100 ≤ appliedPenaltyTotal whoisDays bl email optIn) := by
  refine ⟨rfl, rfl, rfl, ?_⟩
  obtain ⟨hapt, hscore, -, -, -⟩ :=
    calcV2_nonrejected httpsOK tlsDays whoisDays bl mxRepOk googleFlagged email ssl optIn website
  rw [hscore]
  split_ifs with h
  · constructor
    · intro _; omega
    · intro _; rfl
  · omega

/-- Claim C4: on the non-rejected path the returned breakdown satisfies the
clamp invariant, totalPenalties plus finalScore is 100 whenever no clamping
occurred, clamping forces totalPenalties to the complementary bound, and the
returned score lies between 0 and 100. -/
theorem claim_c4_breakdown_invariant (httpsOK : Bool) (tlsDays whoisDays : Int)
    (bl : BlacklistAnalysis) (mxRepOk googleFlagged : Bool) (email : EmailSecurity)
    (ssl : SSLQuality) (optIn : OptInCheck) (website : WebsiteCheck) :
    (CalculateScoreV2 httpsOK tlsDays whoisDays bl mxRepOk googleFlagged email ssl
        optIn website false).Breakdown.FinalScore =
      max 0 (min 100
        ((CalculateScoreV2 httpsOK tlsDays whoisDays bl mxRepOk googleFlagged email
            ssl optIn website false).Breakdown.StartingScore -
         (CalculateScoreV2 httpsOK tlsDays whoisDays bl mxRepOk googleFlagged email
            ssl optIn website false).Breakdown.TotalPenalties)) ∧
    (0 ≤ 100 - appliedPenaltyTotal whoisDays bl email optIn →
      (CalculateScoreV2 httpsOK tlsDays whoisDays bl mxRepOk googleFlagged email ssl
          optIn website false).Breakdown.TotalPenalties +
        (CalculateScoreV2 httpsOK tlsDays whoisDays bl mxRepOk googleFlagged email ssl
          optIn website false).Breakdown.FinalScore = 100) ∧
    (100 - appliedPenaltyTotal whoisDays bl email optIn < 0 →
      (CalculateScoreV2 httpsOK tlsDays whoisDays bl mxRepOk googleFlagged email ssl
        optIn website false).Breakdown.TotalPenalties = 100) ∧
    (100 < 100 - appliedPenaltyTotal whoisDays bl email optIn →
      (CalculateScoreV2 httpsOK tlsDays whoisDays bl mxRepOk googleFlagged email ssl
        optIn website false).Breakdown.TotalPenalties = 0) ∧
    0 ≤ (CalculateScoreV2 httpsOK tlsDays whoisDays bl mxRepOk googleFlagged email ssl
        optIn website false).Score ∧
    (CalculateScoreV2 httpsOK tlsDays whoisDays bl mxRepOk googleFlagged email ssl
        optIn website false).Score ≤ 100 := by
  obtain ⟨hapt, hscore, hstart, htotal, hfinal⟩ :=
    calcV2_nonrejected httpsOK tlsDays whoisDays bl mxRepOk googleFlagged email ssl optIn website
  rw [hfinal, hscore, hstart, htotal]
  split_ifs with h <;>
    refine ⟨by omega, fun hc => by omega, fun hc => by omega, fun hc => by omega, by omega, by omega⟩

/-! Helper lemmas for the warm-up generator. -/

lemma getElem?_range_map {α : Type} (g : Nat → α) (n i : Nat) (h : i < n) :
    ((List.range n).map g)[i]? = some (g i) := by
  rw [List.getElem?_map, List.getElem?_range h]
  rfl

lemma excelRound_nonneg (v : Rat) : 0 ≤ excelRound v := by
  unfold excelRound
  split_ifs with h
  · exact le_refl 0
  · push_neg at h
    exact Int.le_floor.mpr (by push_cast; linarith)

lemma setLimit_length (l : List WarmupDay) (i : Nat) (v : Int) :
    (setLimit l i v).length = l.length := by
  induction l generalizing i with
  | nil => rfl
  | cons d rest ih =>
    cases i with
    | zero => rfl
    | succ n => simp [setLimit, ih]

lemma setLimit_getElem?_self (l : List WarmupDay) (i : Nat) (v : Int) (d : WarmupDay)
    (h : l[i]? = some d) : (setLimit l i v)[i]? = some ⟨d.Day, v⟩ := by
  induction l generalizing i with
  | nil => simp at h
  | cons x rest ih =>
    cases i with
    | zero =>
      simp only [List.getElem?_cons_zero, Option.some.injEq] at h
      subst h
      simp [setLimit]
    | succ n =>
      simp only [List.getElem?_cons_succ] at h
      simpa [setLimit] using ih n h

lemma setLimit_getElem?_some (l : List WarmupDay) (j : Nat) (v : Int) (i : Nat)
    (d : WarmupDay) (h : (setLimit l j v)[i]? = some d) :
    ∃ d0, l[i]? = some d0 ∧ d.Day = d0.Day ∧ (d.Limit = d0.Limit ∨ d.Limit = v) := by
  induction l generalizing i j with
  | nil => simp [setLimit] at h
  | cons x rest ih =>
    cases j with
    | zero =>
      cases i with
      | zero =>
        simp only [setLimit, List.getElem?_cons_zero, Option.some.injEq] at h
        exact ⟨x, by simp, by rw [← h], by rw [← h]; exact Or.inr rfl⟩
      | succ n =>
        simp only [setLimit, List.getElem?_cons_succ] at h ⊢
        exact ⟨d, h, rfl, Or.inl rfl⟩
    | succ m =>
      cases i with
      | zero =>
        simp only [setLimit, List.getElem?_cons_zero, Option.some.injEq] at h
        exact ⟨x, by simp, by rw [← h], by rw [← h]; exact Or.inl rfl⟩
      | succ n =>
        simp only [setLimit, List.getElem?_cons_succ] at h ⊢
        exact ih m n h

lemma overwriteUpTo_length (n : Nat) (p f : List WarmupDay) :
    (overwriteUpTo n p f).length = p.length := by
  induction n generalizing p f with
  | zero => rfl
  | succ m ih =>
    cases p with
    | nil => cases f <;> rfl
    | cons d rest =>
      cases f with
      | nil => rfl
      | cons g fs => simp [overwriteUpTo, ih]

lemma overwriteUpTo_getElem?_lt (n : Nat) (p f : List WarmupDay) (i : Nat)
    (h1 : i < n) (h2 : i < f.length) (h3 : i < p.length) :
    (overwriteUpTo n p f)[i]? = f[i]? := by
  induction n generalizing p f i with
  | zero => omega
  | succ m ih =>
    cases p with
    | nil => simp at h3
    | cons d rest =>
      cases f with
      | nil => simp at h2
      | cons g fs =>
        cases i with
        | zero => simp [overwriteUpTo]
        | succ k =>
          simp only [overwriteUpTo, List.getElem?_cons_succ]
          exact ih rest fs k (by omega) (by simpa using h2) (by simpa using h3)

lemma overwriteUpTo_getElem?_or (n : Nat) (p f : List WarmupDay) (i : Nat) :
    (overwriteUpTo n p f)[i]? = f[i]? ∨ (overwriteUpTo n p f)[i]? = p[i]? := by
  induction n generalizing p f i with
  | zero => exact Or.inr rfl
  | succ m ih =>
    cases p with
    | nil =>
      cases f with
      | nil => exact Or.inr rfl
      | cons g fs => exact Or.inr rfl
    | cons d rest =>
      cases f with
      | nil => exact Or.inr rfl
      | cons g fs =>
        cases i with
        | zero => exact Or.inl (by simp [overwriteUpTo])
        | succ k =>
          simp only [overwriteUpTo, List.getElem?_cons_succ]
          exact ih rest fs k

lemma generateFibonacciPlan_length (V days : Int) (h : ¬(days ≤ 0 ∨ V ≤ 0)) :
    (generateFibonacciPlan V days).length = days.toNat := by
  unfold generateFibonacciPlan
  rw [if_neg h]
  simp [setLimit_length]

lemma generateFibonacciPlan_last (V days : Int) (hd : 0 < days) (hv : 0 < V) :
    (generateFibonacciPlan V days)[days.toNat - 1]? = some ⟨days, V⟩ := by
  unfold generateFibonacciPlan
  rw [if_neg (by omega)]
  have h1 : days.toNat - 1 < days.toNat := by omega
  rw [setLimit_getElem?_self _ _ _ _ (getElem?_range_map _ _ _ h1)]
  dsimp only
  have hdcast : ((days.toNat - 1 : Nat) : Int) + 1 = days := by omega
  rw [hdcast]

lemma generateFibonacciPlan_entry (V days : Int) (i : Nat) (d : WarmupDay)
    (h : (generateFibonacciPlan V days)[i]? = some d) :
    d.Day = (i : Int) + 1 ∧ 0 ≤ d.Limit := by
  unfold generateFibonacciPlan at h
  by_cases hg : days ≤ 0 ∨ V ≤ 0
  · rw [if_pos hg] at h
    simp at h
  · rw [if_neg hg] at h
    obtain ⟨d0, hd0, hday, hlim⟩ := setLimit_getElem?_some _ _ _ _ _ h
    have hi : i < days.toNat := by
      by_contra hni
      rw [List.getElem?_eq_none (by simp; omega)] at hd0
      cases hd0
    rw [getElem?_range_map _ _ _ hi] at hd0
    simp only [Option.some.injEq] at hd0
    subst hd0
    refine ⟨by rw [hday], ?_⟩
    rcases hlim with h1 | h1
    · rw [h1]
      exact excelRound_nonneg _
    · rw [h1]
      omega

/-- The invariant the warm-up plans satisfy: length 60, day numbers contiguous
from 1, and non-negative limits. -/
def goodPlan (l : List WarmupDay) : Prop :=
  l.length = 60 ∧ ∀ (i : Nat) (d : WarmupDay), l[i]? = some d →
    d.Day = (i : Int) + 1 ∧ 0 ≤ d.Limit

lemma goodPlan_range_map (g : Nat → WarmupDay)
    (h : ∀ i : Nat, (g i).Day = (i : Int) + 1 ∧ 0 ≤ (g i).Limit) :
    goodPlan ((List.range 60).map g) := by
  constructor
  · simp
  · intro i d hd
    have hi : i < 60 := by
      by_contra hni
      rw [List.getElem?_eq_none (by simp; omega)] at hd
      cases hd
    rw [getElem?_range_map _ _ _ hi] at hd
    simp only [Option.some.injEq] at hd
    subst hd
    exact h i

lemma goodPlan_plan30Static (median30 : Rat) : goodPlan (plan30Static median30) := by
  unfold plan30Static
  refine goodPlan_range_map _ (fun i => ⟨rfl, ?_⟩)
  dsimp only
  split_ifs
  · exact excelRound_nonneg _
  · exact le_refl 0

lemma goodPlan_planLt30Static (medianCustom factor : Rat) :
    goodPlan (planLt30Static medianCustom factor) := by
  unfold planLt30Static
  exact goodPlan_range_map _ (fun i => ⟨rfl, excelRound_nonneg _⟩)

lemma goodPlan_planGt30Static (medianCustom factor : Rat) :
    goodPlan (planGt30Static medianCustom factor) := by
  unfold planGt30Static
  exact goodPlan_range_map _ (fun i => ⟨rfl, excelRound_nonneg _⟩)

lemma goodPlan_overwrite (n : Nat) (p f : List WarmupDay) (hp : goodPlan p)
    (hf : ∀ (i : Nat) (d : WarmupDay), f[i]? = some d →
      d.Day = (i : Int) + 1 ∧ 0 ≤ d.Limit) :
    goodPlan (overwriteUpTo n p f) := by
  constructor
  · rw [overwriteUpTo_length]
    exact hp.1
  · intro i d hd
    rcases overwriteUpTo_getElem?_or n p f i with h | h
    · rw [h] at hd
      exact hf i d hd
    · rw [h] at hd
      exact hp.2 i d hd

/-- Claim C4 witness: the theorem applied to a clean concrete input, where no
clamping occurs. -/
theorem claim_c4_witness :
    (CalculateScoreV2 true 100 100 ⟨false, "", [], 0, []⟩ true false
        ⟨true, true, true, "", ""⟩ ⟨"", false, "", "", 0⟩ ⟨true, true, ""⟩
        ⟨true, true, 10, 10⟩ false).Breakdown.TotalPenalties +
      (CalculateScoreV2 true 100 100 ⟨false, "", [], 0, []⟩ true false
        ⟨true, true, true, "", ""⟩ ⟨"", false, "", "", 0⟩ ⟨true, true, ""⟩
        ⟨true, true, 10, 10⟩ false).Breakdown.FinalScore = 100 ∧
    0 ≤ (CalculateScoreV2 true 100 100 ⟨false, "", [], 0, []⟩ true false
        ⟨true, true, true, "", ""⟩ ⟨"", false, "", "", 0⟩ ⟨true, true, ""⟩
        ⟨true, true, 10, 10⟩ false).Score :=
  ⟨(claim_c4_breakdown_invariant true 100 100 ⟨false, "", [], 0, []⟩ true false
      ⟨true, true, true, "", ""⟩ ⟨"", false, "", "", 0⟩ ⟨true, true, ""⟩
      ⟨true, true, 10, 10⟩).2.1 (by decide),
   (claim_c4_breakdown_invariant true 100 100 ⟨false, "", [], 0, []⟩ true false
      ⟨true, true, true, "", ""⟩ ⟨"", false, "", "", 0⟩ ⟨true, true, ""⟩
      ⟨true, true, 10, 10⟩).2.2.2.2.1⟩

/-! Branch characterizations of GenerateWarmupPlans. -/

lemma generateWarmupPlans_plan30 (V P : Int) :
    (GenerateWarmupPlans V P).plan30 = plan30Static ((V : Rat) / 30) := by
  unfold GenerateWarmupPlans
  dsimp only
  split_ifs <;> rfl

lemma generateWarmupPlans_20_planLt30 (V : Int) :
    (GenerateWarmupPlans V 20).planLt30 =
      overwriteUpTo (20 : Int).toNat
        (planLt30Static ((V : Rat) / ((20 : Int) : Rat)) ((30 : Rat) / ((20 : Int) : Rat)))
        (generateFibonacciPlan V 20) := rfl

lemma generateWarmupPlans_45_planGt30 (V : Int) :
    (GenerateWarmupPlans V 45).planGt30 =
      overwriteUpTo (45 : Int).toNat
        (planGt30Static ((V : Rat) / ((45 : Int) : Rat)) ((30 : Rat) / ((45 : Int) : Rat)))
        (generateFibonacciPlan V 45) := rfl

/-- Claim C1: for every positive target volume and the exact-target periods 20
and 45, the replaced curve ends at the target exactly: entry 19 of the
accelerated plan for period 20 is day 20 with limit V, and entry 44 of the
extended plan for period 45 is day 45 with limit V. -/
theorem claim_c1_exact_target (V : Int) (hV : 0 < V) :
    (GenerateWarmupPlans V 20).planLt30[19]? = some ⟨20, V⟩ ∧
    (GenerateWarmupPlans V 45).planGt30[44]? = some ⟨45, V⟩ := by
  constructor
  · rw [generateWarmupPlans_20_planLt30]
    rw [overwriteUpTo_getElem?_lt _ _ _ _ (by decide)
      (by rw [generateFibonacciPlan_length V 20 (by omega)]; decide)
      (by simp [planLt30Static])]
    have h := generateFibonacciPlan_last V 20 (by omega) hV
    have h19 : (20 : Int).toNat - 1 = 19 := by decide
    rw [h19] at h
    exact h
  · rw [generateWarmupPlans_45_planGt30]
    rw [overwriteUpTo_getElem?_lt _ _ _ _ (by decide)
      (by rw [generateFibonacciPlan_length V 45 (by omega)]; decide)
      (by simp [planGt30Static])]
    have h := generateFibonacciPlan_last V 45 (by omega) hV
    have h44 : (45 : Int).toNat - 1 = 44 := by decide
    rw [h44] at h
    exact h

/-- Claim C1 witness: the theorem applied at target volume 10000. -/
theorem claim_c1_witness :
    (GenerateWarmupPlans 10000 20).planLt30[19]? = some ⟨20, 10000⟩ ∧
    (GenerateWarmupPlans 10000 45).planGt30[44]? = some ⟨45, 10000⟩ :=
  claim_c1_exact_target 10000 (by decide)

/-- Claim C6 counterexample: the multiplier table has 40 entries, not 41, and
day 41 of the reference curve is already past the table, producing limit 0
where a 41-entry table reaching 150 at day 41 would produce a huge rounded
value. -/
theorem claim_c6_counterexample :
    (GenerateWarmupPlans 10000 30).plan30[40]? = some ⟨41, 0⟩ ∧
    ¬(excelRound ((10000 : Rat) / 30 * 150) = 0) ∧
    ¬(multipliers30.length = 41) := by
  refine ⟨of_decide_eq_true (by with_unfolding_all rfl),
    of_decide_eq_true (by with_unfolding_all rfl), by decide⟩

/-- Claim C6 amended: the reference 30-day curve satisfies limit on each day
equal to round of median30 times the table multiplier for days within the
40-entry table, which starts at 1/7 and reaches 150 at day 40, and 0 beyond
it; in particular day 9 for target 10000 gives 333. -/
theorem claim_c6_reference_curve (V P day : Int) (h1 : 1 ≤ day) (h2 : day ≤ 60) :
    (GenerateWarmupPlans V P).plan30[(day - 1).toNat]? =
      some ⟨day, if day ≤ 40 then
        excelRound ((V : Rat) / 30 * multipliers30.getD (day - 1).toNat 0) else 0⟩ ∧
    multipliers30.length = 40 ∧
    multipliers30.getD 0 0 = 1/7 ∧
    multipliers30.getD 39 0 = 150 ∧
    (GenerateWarmupPlans 10000 30).plan30[8]? = some ⟨9, 333⟩ := by
  refine ⟨?_, by decide, of_decide_eq_true (by with_unfolding_all rfl),
    of_decide_eq_true (by with_unfolding_all rfl),
    of_decide_eq_true (by with_unfolding_all rfl)⟩
  rw [generateWarmupPlans_plan30]
  unfold plan30Static
  have hi : (day - 1).toNat < 60 := by omega
  rw [getElem?_range_map _ _ _ hi]
  dsimp only
  have hd : (((day - 1).toNat : Nat) : Int) + 1 = day := by omega
  rw [hd]
  have hlen : (multipliers30.length : Int) = 40 := by decide
  rw [hlen]

/-- Claim C6 witness: the theorem applied at volume 10000, period 30, day 9. -/
theorem claim_c6_witness :
    (GenerateWarmupPlans 10000 30).plan30[((9 : Int) - 1).toNat]? =
      some ⟨9, if (9 : Int) ≤ 40 then
        excelRound ((10000 : Rat) / 30 * multipliers30.getD ((9 : Int) - 1).toNat 0)
      else 0⟩ :=
  (claim_c6_reference_curve 10000 30 9 (by decide) (by decide)).1

/-- The nine per-day divisors of the accelerated curve. -/
def lt9Divisors : List Rat := [7, 6, 5, 4, 3, 2, 1.5, 1.2, 1]

/-- Claim C7: on days 1 to 9 the accelerated curve divides medianCustom by the
per-day divisor and multiplies by factor; on days 10 to 60 the table
multiplier is applied twice as in round of medianCustom times m times factor
times m; and the rounding used everywhere maps non-positive values to 0 and
positive values to floor of v plus one half, so one half rounds up. -/
theorem claim_c7_accelerated_curve (medianCustom factor : Rat) (day : Int)
    (v : Rat) (n : Int) :
    (1 ≤ day → day ≤ 9 →
      lessThan30 medianCustom factor day =
        (medianCustom / lt9Divisors.getD (day - 1).toNat 0) * factor) ∧
    (10 ≤ day → day ≤ 60 →
      lessThan30 medianCustom factor day =
        ((medianCustom * lessThan30Mults.getD (day - 10).toNat 0) * factor) *
          lessThan30Mults.getD (day - 10).toNat 0) ∧
    (v ≤ 0 → excelRound v = 0) ∧
    (0 < v → excelRound v = ⌊v + 1/2⌋) ∧
    (0 ≤ n → excelRound ((n : Rat) + 1/2) = n + 1) := by
  refine ⟨?_, ?_, ?_, ?_, ?_⟩
  · intro h1 h2
    interval_cases day <;> simp [lessThan30, lt9Divisors]
  · intro h1 h2
    have hlen : (lessThan30Mults.length : Int) = 51 := by decide
    unfold lessThan30
    iterate 9 rw [if_neg (by omega)]
    dsimp only
    rw [if_neg (by rw [hlen]; omega)]
  · intro hv
    unfold excelRound
    rw [if_pos hv]
  · intro hv
    unfold excelRound
    rw [if_neg (by linarith)]
  · intro hn
    unfold excelRound
    have h0 : (0 : Rat) ≤ (n : Rat) := by exact_mod_cast hn
    rw [if_neg (by linarith)]
    rw [show ((n : Rat) + 1/2 + 1/2) = (((n + 1 : Int) : Rat)) by push_cast; ring]
    exact Int.floor_intCast _

/-- Claim C7 witness: the theorem applied at day 1, a non-positive value and
the half-integer 0 + 1/2. -/
theorem claim_c7_witness :
    lessThan30 1 1 1 = (1 / lt9Divisors.getD ((1 : Int) - 1).toNat 0) * 1 ∧
    excelRound (-1) = 0 ∧
    excelRound (((0 : Int) : Rat) + 1/2) = 0 + 1 := by
  have h := claim_c7_accelerated_curve 1 1 1 (-1) 0
  exact ⟨h.1 (by decide) (by decide),
    h.2.2.1 (of_decide_eq_true (by with_unfolding_all rfl)), h.2.2.2.2 (by decide)⟩

/-- Claim C8 counterexample: for days 20 the plans still have length 60, not
min of days and 60, which is 20. -/
theorem claim_c8_counterexample :
    ¬((GenerateWarmupPlans 100 20).planLt30.length = min (20 : Nat) 60) := by
  decide

/-- The clamping of the custom period at the top of GenerateWarmupPlans. -/
def cpClamp (customPeriod : Int) : Int :=
  let c := if customPeriod ≤ 0 then 30 else customPeriod
  if c > 60 then 60 else c

set_option maxHeartbeats 1000000 in
lemma generateWarmupPlans_cases (V P : Int) :
    (GenerateWarmupPlans V P = ⟨plan30Static ((V : Rat) / 30),
      planLt30Static ((V : Rat) / (cpClamp P : Rat)) ((30 : Rat) / (cpClamp P : Rat)),
      planGt30Static ((V : Rat) / (cpClamp P : Rat)) ((30 : Rat) / (cpClamp P : Rat))⟩) ∨
    (GenerateWarmupPlans V P = ⟨plan30Static ((V : Rat) / 30),
      overwriteUpTo (cpClamp P).toNat
        (planLt30Static ((V : Rat) / (cpClamp P : Rat)) ((30 : Rat) / (cpClamp P : Rat)))
        (generateFibonacciPlan V (cpClamp P)),
      planGt30Static ((V : Rat) / (cpClamp P : Rat)) ((30 : Rat) / (cpClamp P : Rat))⟩) ∨
    (GenerateWarmupPlans V P = ⟨plan30Static ((V : Rat) / 30),
      planLt30Static ((V : Rat) / (cpClamp P : Rat)) ((30 : Rat) / (cpClamp P : Rat)),
      overwriteUpTo (cpClamp P).toNat
        (planGt30Static ((V : Rat) / (cpClamp P : Rat)) ((30 : Rat) / (cpClamp P : Rat)))
        (generateFibonacciPlan V (cpClamp P))⟩) := by
  unfold GenerateWarmupPlans cpClamp
  dsimp only
  split_ifs
  all_goals first
    | exact Or.inl rfl
    | exact Or.inr (Or.inl rfl)
    | exact Or.inr (Or.inr rfl)

/-- Claim C8 amended: for every target volume and days input, each of the
three returned sequences has length 60 (the fixed grid, not min of days and
60), day numbers contiguous from 1, and every limit non-negative. -/
theorem claim_c8_plan_shape (V P : Int) :
    goodPlan (GenerateWarmupPlans V P).plan30 ∧
    goodPlan (GenerateWarmupPlans V P).planLt30 ∧
    goodPlan (GenerateWarmupPlans V P).planGt30 := by
  rcases generateWarmupPlans_cases V P with h | h | h <;> rw [h]
  · exact ⟨goodPlan_plan30Static _, goodPlan_planLt30Static _ _, goodPlan_planGt30Static _ _⟩
  · exact ⟨goodPlan_plan30Static _,
      goodPlan_overwrite _ _ _ (goodPlan_planLt30Static _ _)
        (fun i d hd => generateFibonacciPlan_entry _ _ i d hd),
      goodPlan_planGt30Static _ _⟩
  · exact ⟨goodPlan_plan30Static _, goodPlan_planLt30Static _ _,
      goodPlan_overwrite _ _ _ (goodPlan_planGt30Static _ _)
        (fun i d hd => generateFibonacciPlan_entry _ _ i d hd)⟩

/-- Claim C8 witness: the theorem applied at volume 10000, period 30 and
index 0 of the accelerated curve. -/
theorem claim_c8_witness :
    (GenerateWarmupPlans 10000 30).planLt30.length = 60 ∧
    ((⟨1, 48⟩ : WarmupDay).Day = ((0 : Nat) : Int) + 1 ∧
      0 ≤ (⟨1, 48⟩ : WarmupDay).Limit) :=
  ⟨(claim_c8_plan_shape 10000 30).2.1.1,
   (claim_c8_plan_shape 10000 30).2.1.2 0 ⟨1, 48⟩
     (of_decide_eq_true (by with_unfolding_all rfl))⟩

end Vetting
